import Mathlib

/-!
Verification of the kqueue backend of the polling library (src/src/kqueue.rs).

The kernel interaction (the kevent syscall, reads and writes on the wake
channel) is external nondeterminism: it is modelled by explicit function or
list parameters describing what the kernel returns, while everything the
library itself computes (changelists, error filtering, buffer bookkeeping,
timeout conversion, the translation of raw records into events) is translated
directly from the source.
-/

namespace Polling

/-! Platform constants, with the values of the libc crate on the BSD/macOS
targets this backend compiles for. -/

def EVFILT_READ : Int := -1

def EVFILT_WRITE : Int := -2

def EV_ADD : Nat := 0x1

def EV_DELETE : Nat := 0x2

def EV_ONESHOT : Nat := 0x10

def EV_RECEIPT : Nat := 0x40

def EV_ERROR : Nat := 0x4000

def EV_EOF : Nat := 0x8000

def ENOENT : Int := 2

def EPIPE : Int := 32

def EWOULDBLOCK : Int := 35

/-- A raw kernel event record, mirroring the libc kevent struct as used by the
source: ident and udata are machine words (Nat), filter is a signed short
(Int), flags and fflags are bit masks (Nat), data is a signed word (Int). -/
structure KEvent where
  ident : Nat
  filter : Int
  flags : Nat
  fflags : Nat
  data : Int
  udata : Nat
deriving DecidableEq

/-- The public Event value: crate::Event with key: usize. -/
structure Event where
  key : Nat
  readable : Bool
  writable : Bool
deriving DecidableEq

/-- const NOTIFY_KEY: usize = usize::MAX (64-bit target). -/
def NOTIFY_KEY : Nat := 2 ^ 64 - 1

/-- The Events buffer: a boxed slice of raw records plus a logical length. -/
structure Events where
  list : List KEvent
  len : Nat
deriving DecidableEq

/-- The zeroed kevent used to fill the fresh buffer in Events::new. -/
def zeroKEvent : KEvent :=
  { ident := 0, filter := 0, flags := 0, fflags := 0, data := 0, udata := 0 }

/-- Events::new: vec![ev; 1000].into_boxed_slice() with len = 0. -/
def Events.new : Events :=
  { list := List.replicate 1000 zeroKEvent, len := 0 }

/-- The per-record translation performed inside Events::iter. -/
def eventOfKEvent (r : KEvent) : Event :=
  { key := r.udata
    readable := r.filter == EVFILT_READ
    writable := r.filter == EVFILT_WRITE ||
      (r.filter == EVFILT_READ && (r.flags &&& EV_EOF != 0)) }

/-- Events::iter: self.list[..self.len].iter().map(translation). -/
def Events.iter (e : Events) : List Event :=
  (e.list.take e.len).map eventOfKEvent

/-- The EVFILT_READ change built by Poller::interest: EV_ONESHOT | EV_RECEIPT,
plus EV_ADD when ev.readable and EV_DELETE otherwise, tagged with ev.key. -/
def interestReadChange (fd : Nat) (ev : Event) : KEvent :=
  { ident := fd
    filter := EVFILT_READ
    flags := (EV_ONESHOT ||| EV_RECEIPT) ||| (if ev.readable then EV_ADD else EV_DELETE)
    fflags := 0
    data := 0
    udata := ev.key }

/-- The EVFILT_WRITE change built by Poller::interest: EV_ONESHOT | EV_RECEIPT,
plus EV_ADD when ev.writable and EV_DELETE otherwise, tagged with ev.key. -/
def interestWriteChange (fd : Nat) (ev : Event) : KEvent :=
  { ident := fd
    filter := EVFILT_WRITE
    flags := (EV_ONESHOT ||| EV_RECEIPT) ||| (if ev.writable then EV_ADD else EV_DELETE)
    fflags := 0
    data := 0
    udata := ev.key }

/-- The two-element changelist submitted by Poller::interest. -/
def interestChangelist (fd : Nat) (ev : Event) : List KEvent :=
  [interestReadChange fd ev, interestWriteChange fd ev]

/-- The error-inspection loop of Poller::interest over the receipt list:
return the first receipt whose data is a real error code other than ENOENT
and other than EPIPE, else succeed. -/
def checkInterestErrors : List KEvent → Except Int Unit
  | [] => Except.ok ()
  | r :: rest =>
    if (r.flags &&& EV_ERROR != 0) && (r.data != 0) && (r.data != ENOENT)
        && (r.data != EPIPE) then
      Except.error r.data
    else
      checkInterestErrors rest

/-- Poller::interest: submit the changelist as one batch (submit models the
kevent syscall turning the changelist into a receipt eventlist, or failing
with an OS error code), then inspect the receipts. -/
def interest (fd : Nat) (ev : Event)
    (submit : List KEvent → Except Int (List KEvent)) : Except Int Unit :=
  match submit (interestChangelist fd ev) with
  | Except.error e => Except.error e
  | Except.ok evl => checkInterestErrors evl

/-- The EVFILT_READ deletion built by Poller::remove. -/
def removeReadChange (fd : Nat) : KEvent :=
  { ident := fd
    filter := EVFILT_READ
    flags := EV_DELETE ||| EV_RECEIPT
    fflags := 0
    data := 0
    udata := 0 }

/-- The EVFILT_WRITE deletion built by Poller::remove. -/
def removeWriteChange (fd : Nat) : KEvent :=
  { ident := fd
    filter := EVFILT_WRITE
    flags := EV_DELETE ||| EV_RECEIPT
    fflags := 0
    data := 0
    udata := 0 }

/-- The two-element changelist submitted by Poller::remove. -/
def removeChangelist (fd : Nat) : List KEvent :=
  [removeReadChange fd, removeWriteChange fd]

/-- The error-inspection loop of Poller::remove: return the first receipt
whose data is a real error code other than ENOENT, else succeed. -/
def checkRemoveErrors : List KEvent → Except Int Unit
  | [] => Except.ok ()
  | r :: rest =>
    if (r.flags &&& EV_ERROR != 0) && (r.data != 0) && (r.data != ENOENT) then
      Except.error r.data
    else
      checkRemoveErrors rest

/-- Poller::remove: submit both deletions as one batch, then inspect. -/
def remove (fd : Nat)
    (submit : List KEvent → Except Int (List KEvent)) : Except Int Unit :=
  match submit (removeChangelist fd) with
  | Except.error e => Except.error e
  | Except.ok evl => checkRemoveErrors evl

/-- The Event literal used for the wake-channel registration in Poller::new
and in Poller::wait. -/
def notifyEvent : Event :=
  { key := NOTIFY_KEY, readable := true, writable := false }

/-- The wake-channel registration performed by Poller::new on the read side
of the notification pipe. -/
def pollerNewRegister (readFd : Nat)
    (submit : List KEvent → Except Int (List KEvent)) : Except Int Unit :=
  interest readFd { key := NOTIFY_KEY, readable := true, writable := false } submit

/-- A libc timespec. -/
structure Timespec where
  tv_sec : Int
  tv_nsec : Int
deriving DecidableEq

/-- A Rust std::time::Duration, split as its whole seconds (as_secs, a u64)
and subsecond nanoseconds (subsec_nanos, below 10^9). -/
structure Duration where
  secs : Nat
  nanos : Nat
deriving DecidableEq

/-- The `as libc::time_t` cast: reduce modulo 2^64 and reinterpret as a
signed 64-bit value. -/
def toI64 (n : Nat) : Int :=
  if n % 2 ^ 64 < 2 ^ 63 then (n % 2 ^ 64 : Int) else (n % 2 ^ 64 : Int) - 2 ^ 64

/-- The Duration-to-timespec conversion in Poller::wait:
tv_sec = t.as_secs() as time_t, tv_nsec = t.subsec_nanos() as c_long. -/
def durationToTimespec (d : Duration) : Timespec :=
  { tv_sec := toI64 d.secs, tv_nsec := toI64 d.nanos }

/-- timeout.map(conversion): None passes no time bound to the kernel. -/
def waitTimespec (timeout : Option Duration) : Option Timespec :=
  timeout.map durationToTimespec

/-- The buffer update in Poller::wait: the kernel overwrites the first
res records of the slice and events.len is set to res. -/
def fillEvents (e : Events) (recs : List KEvent) : Events :=
  { list := recs ++ e.list.drop recs.length, len := recs.length }

/-- The drain loop in Poller::wait: read from the wake channel while the
reads succeed; the first failed read (whatever its error) ends the loop and
nothing is returned. The result (how many reads succeeded) is discarded by
the caller, exactly as the Rust loop discards every read result. -/
def drainWhileOk : List (Except Int Nat) → Nat
  | [] => 0
  | Except.ok _ :: rest => drainWhileOk rest + 1
  | Except.error _ :: _ => 0

/-- Poller::wait. The kernel parameter models the kevent wait syscall: given
the timespec bound (none for a null pointer) it either fails with an OS error
code or returns the raw records it filled. drains models the successive read
results on the wake channel, submit the kevent syscall of the re-registration.
Returns the final buffer together with the call result, since the Rust
function mutates the buffer in place before it can still fail. -/
def wait (readFd : Nat) (events : Events) (timeout : Option Duration)
    (kernel : Option Timespec → Except Int (List KEvent))
    (drains : List (Except Int Nat))
    (submit : List KEvent → Except Int (List KEvent)) : Events × Except Int Nat :=
  match kernel (waitTimespec timeout) with
  | Except.error e => (events, Except.error e)
  | Except.ok recs =>
    let filled := fillEvents events recs
    let _ := drainWhileOk drains
    match interest readFd { key := NOTIFY_KEY, readable := true, writable := false } submit with
    | Except.error e => (filled, Except.error e)
    | Except.ok _ => (filled, Except.ok filled.len)

/-- The one-byte message written by Poller::notify. -/
def notifyMsg : List Nat := [1]

/-- Poller::notify: attempt the write and discard its outcome. -/
def notify (writeByte : List Nat → Except Int Nat) : Except Int Unit :=
  let _ := writeByte notifyMsg
  Except.ok ()

/-! Helper lemmas about the two receipt-inspection loops. -/

lemma interestCond_eq_true (r : KEvent) :
    ((r.flags &&& EV_ERROR != 0) && (r.data != 0) && (r.data != ENOENT)
      && (r.data != EPIPE)) = true ↔
      (r.flags &&& EV_ERROR ≠ 0 ∧ r.data ≠ 0 ∧ r.data ≠ ENOENT ∧ r.data ≠ EPIPE) := by
  simp [Bool.and_eq_true, bne_iff_ne, and_assoc]

lemma checkInterestErrors_ok_iff (l : List KEvent) :
    checkInterestErrors l = Except.ok () ↔
      ∀ r ∈ l, r.flags &&& EV_ERROR ≠ 0 → r.data ≠ 0 →
        r.data = ENOENT ∨ r.data = EPIPE := by
  induction l with
  | nil => simp [checkInterestErrors]
  | cons r rest ih =>
    rw [show checkInterestErrors (r :: rest) =
        (if (r.flags &&& EV_ERROR != 0) && (r.data != 0) && (r.data != ENOENT)
            && (r.data != EPIPE) then Except.error r.data
          else checkInterestErrors rest) from rfl]
    by_cases hc : r.flags &&& EV_ERROR ≠ 0 ∧ r.data ≠ 0 ∧ r.data ≠ ENOENT ∧ r.data ≠ EPIPE
    · rw [if_pos ((interestCond_eq_true r).mpr hc)]
      constructor
      · intro h; cases h
      · intro h
        rcases hc with ⟨e1, e2, e3, e4⟩
        rcases h r (List.mem_cons_self r rest) e1 e2 with h5 | h5
        · exact absurd h5 e3
        · exact absurd h5 e4
    · rw [if_neg (fun hb => hc ((interestCond_eq_true r).mp hb)), ih]
      constructor
      · intro h r' hr' e1 e2
        rcases List.mem_cons.mp hr' with rfl | hr'
        · by_contra hne
          push_neg at hne
          exact hc ⟨e1, e2, hne.1, hne.2⟩
        · exact h r' hr' e1 e2
      · exact fun h r' hr' => h r' (List.mem_cons_of_mem r hr')

lemma checkInterestErrors_error (l : List KEvent) (e : Int)
    (h : checkInterestErrors l = Except.error e) :
    ∃ r, r ∈ l ∧ r.flags &&& EV_ERROR ≠ 0 ∧ r.data = e ∧
      e ≠ 0 ∧ e ≠ ENOENT ∧ e ≠ EPIPE := by
  induction l with
  | nil => simp [checkInterestErrors] at h
  | cons r rest ih =>
    rw [show checkInterestErrors (r :: rest) =
        (if (r.flags &&& EV_ERROR != 0) && (r.data != 0) && (r.data != ENOENT)
            && (r.data != EPIPE) then Except.error r.data
          else checkInterestErrors rest) from rfl] at h
    by_cases hc : ((r.flags &&& EV_ERROR != 0) && (r.data != 0) && (r.data != ENOENT)
        && (r.data != EPIPE)) = true
    · rw [if_pos hc] at h
      rcases (interestCond_eq_true r).mp hc with ⟨e1, e2, e3, e4⟩
      have he : r.data = e := by injection h
      exact ⟨r, List.mem_cons_self r rest, e1, he, he ▸ e2, he ▸ e3, he ▸ e4⟩
    · rw [if_neg hc] at h
      rcases ih h with ⟨r', hr', hrest⟩
      exact ⟨r', List.mem_cons_of_mem r hr', hrest⟩

lemma removeCond_eq_true (r : KEvent) :
    ((r.flags &&& EV_ERROR != 0) && (r.data != 0) && (r.data != ENOENT)) = true ↔
      (r.flags &&& EV_ERROR ≠ 0 ∧ r.data ≠ 0 ∧ r.data ≠ ENOENT) := by
  simp [Bool.and_eq_true, bne_iff_ne, and_assoc]

lemma checkRemoveErrors_ok_iff (l : List KEvent) :
    checkRemoveErrors l = Except.ok () ↔
      ∀ r ∈ l, r.flags &&& EV_ERROR ≠ 0 → r.data ≠ 0 → r.data = ENOENT := by
  induction l with
  | nil => simp [checkRemoveErrors]
  | cons r rest ih =>
    rw [show checkRemoveErrors (r :: rest) =
        (if (r.flags &&& EV_ERROR != 0) && (r.data != 0) && (r.data != ENOENT)
          then Except.error r.data
          else checkRemoveErrors rest) from rfl]
    by_cases hc : r.flags &&& EV_ERROR ≠ 0 ∧ r.data ≠ 0 ∧ r.data ≠ ENOENT
    · rw [if_pos ((removeCond_eq_true r).mpr hc)]
      constructor
      · intro h; cases h
      · intro h
        rcases hc with ⟨e1, e2, e3⟩
        exact absurd (h r (List.mem_cons_self r rest) e1 e2) e3
    · rw [if_neg (fun hb => hc ((removeCond_eq_true r).mp hb)), ih]
      constructor
      · intro h r' hr' e1 e2
        rcases List.mem_cons.mp hr' with rfl | hr'
        · by_contra hne
          exact hc ⟨e1, e2, hne⟩
        · exact h r' hr' e1 e2
      · exact fun h r' hr' => h r' (List.mem_cons_of_mem r hr')

lemma checkRemoveErrors_error (l : List KEvent) (e : Int)
    (h : checkRemoveErrors l = Except.error e) :
    ∃ r, r ∈ l ∧ r.flags &&& EV_ERROR ≠ 0 ∧ r.data = e ∧ e ≠ 0 ∧ e ≠ ENOENT := by
  induction l with
  | nil => simp [checkRemoveErrors] at h
  | cons r rest ih =>
    rw [show checkRemoveErrors (r :: rest) =
        (if (r.flags &&& EV_ERROR != 0) && (r.data != 0) && (r.data != ENOENT)
          then Except.error r.data
          else checkRemoveErrors rest) from rfl] at h
    by_cases hc : ((r.flags &&& EV_ERROR != 0) && (r.data != 0)
        && (r.data != ENOENT)) = true
    · rw [if_pos hc] at h
      rcases (removeCond_eq_true r).mp hc with ⟨e1, e2, e3⟩
      have he : r.data = e := by injection h
      exact ⟨r, List.mem_cons_self r rest, e1, he, he ▸ e2, he ▸ e3⟩
    · rw [if_neg hc] at h
      rcases ih h with ⟨r', hr', hrest⟩
      exact ⟨r', List.mem_cons_of_mem r hr', hrest⟩

/-! Claim theorems. -/

/-- Claim C1: for every raw kernel record in the valid prefix of the Events
buffer, the Event produced by Events::iter at the same position has key equal
to the user tag of the record, readable true exactly when the filter of the
record is the read filter, and writable true exactly when the filter is the
write filter or the filter is the read filter and the flags of the record
include the end-of-file flag. -/
theorem c1_iter_translation (e : Events) (i : Nat)
    (h1 : i < e.len) (h2 : i < e.list.length) :
    ∃ h : i < (Events.iter e).length,
      ((Events.iter e).get ⟨i, h⟩).key = (e.list.get ⟨i, h2⟩).udata ∧
      (((Events.iter e).get ⟨i, h⟩).readable = true ↔
        (e.list.get ⟨i, h2⟩).filter = EVFILT_READ) ∧
      (((Events.iter e).get ⟨i, h⟩).writable = true ↔
        ((e.list.get ⟨i, h2⟩).filter = EVFILT_WRITE ∨
          ((e.list.get ⟨i, h2⟩).filter = EVFILT_READ ∧
            (e.list.get ⟨i, h2⟩).flags &&& EV_EOF ≠ 0))) := by
  have hlen : (Events.iter e).length = min e.len e.list.length := by
    simp [Events.iter]
  have h : i < (Events.iter e).length := by
    rw [hlen]; exact lt_min h1 h2
  have hget : (Events.iter e).get ⟨i, h⟩ = eventOfKEvent (e.list.get ⟨i, h2⟩) := by
    simp [Events.iter, List.get_eq_getElem, List.getElem_map, List.getElem_take]
  refine ⟨h, ?_, ?_, ?_⟩ <;> rw [hget]
  · rfl
  · simp [eventOfKEvent]
  · simp [eventOfKEvent, Bool.or_eq_true, Bool.and_eq_true, bne_iff_ne]

/-- A concrete record: read filter with the end-of-file flag, user tag 42. -/
def exEofRecord : KEvent :=
  { ident := 7, filter := EVFILT_READ, flags := EV_EOF, fflags := 0
    data := 0, udata := 42 }

/-- A concrete one-record Events buffer. -/
def exEvents : Events := { list := [exEofRecord], len := 1 }

theorem c1_iter_translation_witness :
    (0 < exEvents.len ∧ 0 < exEvents.list.length) ∧
    ∃ h : 0 < (Events.iter exEvents).length,
      ((Events.iter exEvents).get ⟨0, h⟩).key =
        (exEvents.list.get ⟨0, by decide⟩).udata ∧
      (((Events.iter exEvents).get ⟨0, h⟩).readable = true ↔
        (exEvents.list.get ⟨0, by decide⟩).filter = EVFILT_READ) ∧
      (((Events.iter exEvents).get ⟨0, h⟩).writable = true ↔
        ((exEvents.list.get ⟨0, by decide⟩).filter = EVFILT_WRITE ∨
          ((exEvents.list.get ⟨0, by decide⟩).filter = EVFILT_READ ∧
            (exEvents.list.get ⟨0, by decide⟩).flags &&& EV_EOF ≠ 0))) :=
  ⟨⟨by decide, by decide⟩, c1_iter_translation exEvents 0 (by decide) (by decide)⟩

/-- Claim C10: a record whose filter is the write filter never yields a
readable Event; an Event that is both readable and writable arises only from
a record whose filter is the read filter with the end-of-file flag set; a
record with any other filter yields an Event that is neither readable nor
writable. -/
theorem c10_translation_filter_cases (r : KEvent) :
    (r.filter = EVFILT_WRITE → (eventOfKEvent r).readable = false) ∧
    ((eventOfKEvent r).readable = true → (eventOfKEvent r).writable = true →
      r.filter = EVFILT_READ ∧ r.flags &&& EV_EOF ≠ 0) ∧
    (r.filter ≠ EVFILT_READ → r.filter ≠ EVFILT_WRITE →
      (eventOfKEvent r).readable = false ∧ (eventOfKEvent r).writable = false) := by
  refine ⟨?_, ?_, ?_⟩
  · intro hw
    simp [eventOfKEvent, hw, EVFILT_WRITE, EVFILT_READ]
  · intro hr hw
    simp only [eventOfKEvent, beq_iff_eq] at hr
    refine ⟨hr, ?_⟩
    simp only [eventOfKEvent, Bool.or_eq_true, Bool.and_eq_true, beq_iff_eq,
      bne_iff_ne] at hw
    rcases hw with hw | hw
    · rw [hr] at hw
      exact absurd hw (by decide)
    · exact hw.2
  · intro hnr hnw
    constructor
    · simp [eventOfKEvent, hnr]
    · simp [eventOfKEvent, hnr, hnw]

/-- A concrete record with the write filter. -/
def writeOnlyRecord : KEvent :=
  { ident := 4, filter := EVFILT_WRITE, flags := 0, fflags := 0
    data := 0, udata := 11 }

theorem c10_translation_filter_cases_witness :
    (eventOfKEvent writeOnlyRecord).readable = false :=
  (c10_translation_filter_cases writeOnlyRecord).1 rfl

lemma interestFlags_oneshot (b : Bool) :
    ((EV_ONESHOT ||| EV_RECEIPT) ||| (if b then EV_ADD else EV_DELETE))
      &&& EV_ONESHOT ≠ 0 := by
  cases b <;> decide

lemma interestFlags_receipt (b : Bool) :
    ((EV_ONESHOT ||| EV_RECEIPT) ||| (if b then EV_ADD else EV_DELETE))
      &&& EV_RECEIPT ≠ 0 := by
  cases b <;> decide

lemma interestFlags_add_iff (b : Bool) :
    (((EV_ONESHOT ||| EV_RECEIPT) ||| (if b then EV_ADD else EV_DELETE))
      &&& EV_ADD ≠ 0) ↔ b = true := by
  cases b <;> decide

lemma interestFlags_delete_iff (b : Bool) :
    (((EV_ONESHOT ||| EV_RECEIPT) ||| (if b then EV_ADD else EV_DELETE))
      &&& EV_DELETE ≠ 0) ↔ b = false := by
  cases b <;> decide

/-- Claim C5: Poller::interest submits exactly two kernel changes as a single
batch, one for the read filter and one for the write filter, each carrying
the one-shot and receipt flags and the key of the caller as user tag; the
read change adds when event.readable holds and deletes otherwise, and the
write change adds when event.writable holds and deletes otherwise. -/
theorem c5_interest_changelist (fd : Nat) (ev : Event) :
    interestChangelist fd ev = [interestReadChange fd ev, interestWriteChange fd ev] ∧
    (interestReadChange fd ev).ident = fd ∧
    (interestWriteChange fd ev).ident = fd ∧
    (interestReadChange fd ev).filter = EVFILT_READ ∧
    (interestWriteChange fd ev).filter = EVFILT_WRITE ∧
    (interestReadChange fd ev).udata = ev.key ∧
    (interestWriteChange fd ev).udata = ev.key ∧
    (interestReadChange fd ev).flags &&& EV_ONESHOT ≠ 0 ∧
    (interestReadChange fd ev).flags &&& EV_RECEIPT ≠ 0 ∧
    (interestWriteChange fd ev).flags &&& EV_ONESHOT ≠ 0 ∧
    (interestWriteChange fd ev).flags &&& EV_RECEIPT ≠ 0 ∧
    ((interestReadChange fd ev).flags &&& EV_ADD ≠ 0 ↔ ev.readable = true) ∧
    ((interestReadChange fd ev).flags &&& EV_DELETE ≠ 0 ↔ ev.readable = false) ∧
    ((interestWriteChange fd ev).flags &&& EV_ADD ≠ 0 ↔ ev.writable = true) ∧
    ((interestWriteChange fd ev).flags &&& EV_DELETE ≠ 0 ↔ ev.writable = false) ∧
    (∀ submit, interest fd ev submit =
      match submit (interestChangelist fd ev) with
      | Except.error e => Except.error e
      | Except.ok evl => checkInterestErrors evl) := by
  exact ⟨rfl, rfl, rfl, rfl, rfl, rfl, rfl,
    interestFlags_oneshot ev.readable, interestFlags_receipt ev.readable,
    interestFlags_oneshot ev.writable, interestFlags_receipt ev.writable,
    interestFlags_add_iff ev.readable, interestFlags_delete_iff ev.readable,
    interestFlags_add_iff ev.writable, interestFlags_delete_iff ev.writable,
    fun _ => rfl⟩

/-- Claim C3 (amended): with the batch call itself succeeding, interest
returns success exactly when every sub-change receipt that reports an error
carries code ENOENT or EPIPE — EPIPE being tolerated on either sub-change —
and any surfaced error is the code of a receipt that reports an error other
than ENOENT and EPIPE. -/
theorem c3_interest_error_policy (fd : Nat) (ev : Event)
    (submit : List KEvent → Except Int (List KEvent)) (evl : List KEvent)
    (hs : submit (interestChangelist fd ev) = Except.ok evl) :
    (interest fd ev submit = Except.ok () ↔
      ∀ r ∈ evl, r.flags &&& EV_ERROR ≠ 0 → r.data ≠ 0 →
        r.data = ENOENT ∨ r.data = EPIPE) ∧
    (∀ e, interest fd ev submit = Except.error e →
      ∃ r, r ∈ evl ∧ r.flags &&& EV_ERROR ≠ 0 ∧ r.data = e ∧
        e ≠ 0 ∧ e ≠ ENOENT ∧ e ≠ EPIPE) := by
  unfold interest
  rw [hs]
  exact ⟨checkInterestErrors_ok_iff evl, fun e he => checkInterestErrors_error evl e he⟩

/-- Receipts where the read sub-change reports ENOENT and the write
sub-change reports success. -/
def enoentInterestReceipts : List KEvent :=
  [{ ident := 5, filter := EVFILT_READ, flags := EV_ERROR, fflags := 0
     data := ENOENT, udata := 9 },
   { ident := 5, filter := EVFILT_WRITE, flags := EV_ERROR, fflags := 0
     data := 0, udata := 9 }]

theorem c3_interest_error_policy_witness :
    interest 5 { key := 9, readable := true, writable := false }
      (fun _ => Except.ok enoentInterestReceipts) = Except.ok () :=
  (c3_interest_error_policy 5 { key := 9, readable := true, writable := false }
      (fun _ => Except.ok enoentInterestReceipts) enoentInterestReceipts rfl).1.mpr
    (by decide)

/-- The error condition of claim C3 exactly as the claim states it: some
receipt reports an error whose code is not ENOENT, and EPIPE is tolerated
only on the write sub-change (position 1 of the receipt list). -/
def claimedInterestErrorCondition (evl : List KEvent) : Prop :=
  ∃ i, ∃ h : i < evl.length,
    (evl.get ⟨i, h⟩).flags &&& EV_ERROR ≠ 0 ∧
    (evl.get ⟨i, h⟩).data ≠ 0 ∧
    (evl.get ⟨i, h⟩).data ≠ ENOENT ∧
    ¬((evl.get ⟨i, h⟩).data = EPIPE ∧ i = 1)

/-- Receipts where the read sub-change (position 0) reports EPIPE and the
write sub-change reports success. -/
def epipeReadReceipts : List KEvent :=
  [{ ident := 5, filter := EVFILT_READ, flags := EV_ERROR, fflags := 0
     data := EPIPE, udata := 9 },
   { ident := 5, filter := EVFILT_WRITE, flags := EV_ERROR, fflags := 0
     data := 0, udata := 9 }]

theorem c3_counterexample :
    claimedInterestErrorCondition epipeReadReceipts ∧
    interest 5 { key := 9, readable := true, writable := true }
      (fun _ => Except.ok epipeReadReceipts) = Except.ok () :=
  ⟨⟨0, by decide, by decide⟩, rfl⟩

/-- Claim C6: Poller::remove submits deletions of both the read and the
write registration in one batch and, with the batch call itself succeeding,
returns success exactly when every sub-change receipt that reports an error
carries code ENOENT; any surfaced error is the code of a receipt reporting
an error other than ENOENT. -/
theorem c6_remove_error_policy (fd : Nat)
    (submit : List KEvent → Except Int (List KEvent)) (evl : List KEvent)
    (hs : submit (removeChangelist fd) = Except.ok evl) :
    removeChangelist fd = [removeReadChange fd, removeWriteChange fd] ∧
    (removeReadChange fd).filter = EVFILT_READ ∧
    (removeWriteChange fd).filter = EVFILT_WRITE ∧
    (removeReadChange fd).ident = fd ∧
    (removeWriteChange fd).ident = fd ∧
    (removeReadChange fd).flags &&& EV_DELETE ≠ 0 ∧
    (removeWriteChange fd).flags &&& EV_DELETE ≠ 0 ∧
    (removeReadChange fd).flags &&& EV_ADD = 0 ∧
    (removeWriteChange fd).flags &&& EV_ADD = 0 ∧
    (remove fd submit = Except.ok () ↔
      ∀ r ∈ evl, r.flags &&& EV_ERROR ≠ 0 → r.data ≠ 0 → r.data = ENOENT) ∧
    (∀ e, remove fd submit = Except.error e →
      ∃ r, r ∈ evl ∧ r.flags &&& EV_ERROR ≠ 0 ∧ r.data = e ∧ e ≠ 0 ∧ e ≠ ENOENT) := by
  refine ⟨rfl, rfl, rfl, rfl, rfl,
    by simp only [removeReadChange]; decide, by simp only [removeWriteChange]; decide,
    by simp only [removeReadChange]; decide, by simp only [removeWriteChange]; decide,
    ?_, ?_⟩
  · unfold remove; rw [hs]; exact checkRemoveErrors_ok_iff evl
  · unfold remove; rw [hs]; exact fun e he => checkRemoveErrors_error evl e he

/-- Receipts where both deletion sub-changes report ENOENT. -/
def enoentRemoveReceipts : List KEvent :=
  [{ ident := 4, filter := EVFILT_READ, flags := EV_ERROR, fflags := 0
     data := ENOENT, udata := 0 },
   { ident := 4, filter := EVFILT_WRITE, flags := EV_ERROR, fflags := 0
     data := ENOENT, udata := 0 }]

theorem c6_remove_error_policy_witness :
    remove 4 (fun _ => Except.ok enoentRemoveReceipts) = Except.ok () :=
  (c6_remove_error_policy 4 (fun _ => Except.ok enoentRemoveReceipts)
      enoentRemoveReceipts rfl).2.2.2.2.2.2.2.2.2.1.mpr (by decide)

/-- A kernel receipt marking a sub-change as applied without error:
EV_ERROR set (receipts always carry it) and data zero. -/
def okReceipt (r : KEvent) : KEvent :=
  { r with flags := r.flags ||| EV_ERROR, data := 0 }

/-- A batch submission on which every sub-change succeeds. -/
def submitOk : List KEvent → Except Int (List KEvent) :=
  fun cl => Except.ok (cl.map okReceipt)

/-- Claim C2 (amended): a successful wait sets the logical length of the
buffer to the number of records the kernel filled and returns exactly that
count; a None timeout passes no time bound to the kernel, and Some duration
becomes a timespec whose tv_sec is the whole seconds of the duration wrapped
to a signed 64-bit value (equal to the whole seconds whenever they are below
2 to the 63) and whose tv_nsec is the subsecond nanoseconds. -/
theorem c2_wait_fill_and_timeout (readFd : Nat) (events : Events)
    (t : Option Duration)
    (kernel : Option Timespec → Except Int (List KEvent))
    (drains : List (Except Int Nat))
    (submit : List KEvent → Except Int (List KEvent)) (recs : List KEvent)
    (hk : kernel (waitTimespec t) = Except.ok recs)
    (hreg : interest readFd notifyEvent submit = Except.ok ()) :
    wait readFd events t kernel drains submit =
      (fillEvents events recs, Except.ok recs.length) ∧
    (fillEvents events recs).len = recs.length ∧
    waitTimespec none = none ∧
    (∀ d : Duration, waitTimespec (some d) = some (durationToTimespec d)) ∧
    (∀ d : Duration, d.secs < 2 ^ 63 → (durationToTimespec d).tv_sec = (d.secs : Int)) ∧
    (∀ d : Duration, d.nanos < 10 ^ 9 → (durationToTimespec d).tv_nsec = (d.nanos : Int)) ∧
    (∀ d : Duration,
      (durationToTimespec d).tv_sec % (2 ^ 64 : Int) = (d.secs : Int) % (2 ^ 64 : Int)) := by
  refine ⟨?_, rfl, rfl, fun d => rfl, ?_, ?_, ?_⟩
  · simp only [wait, hk]
    unfold notifyEvent at hreg
    simp only [hreg]
    rfl
  · intro d hd
    have h1 : d.secs % 2 ^ 64 = d.secs :=
      Nat.mod_eq_of_lt (lt_trans hd (by norm_num))
    simp only [durationToTimespec, toI64, h1]
    rw [if_pos hd]
    omega
  · intro d hd
    have h0 : d.nanos < 2 ^ 63 := lt_trans hd (by norm_num)
    have h1 : d.nanos % 2 ^ 64 = d.nanos :=
      Nat.mod_eq_of_lt (lt_trans h0 (by norm_num))
    simp only [durationToTimespec, toI64, h1]
    rw [if_pos h0]
    omega
  · intro d
    simp only [durationToTimespec, toI64]
    split <;> omega

theorem c2_wait_fill_and_timeout_witness :
    wait 3 Events.new none (fun _ => Except.ok []) [] submitOk =
      (fillEvents Events.new [], Except.ok 0) :=
  (c2_wait_fill_and_timeout 3 Events.new none (fun _ => Except.ok []) []
    submitOk [] rfl rfl).1

/-- Counterexample to claim C2 as stated: for a duration of 2 to the 63
whole seconds, the timespec handed to the kernel does not carry the whole
seconds of the duration — the u64-to-i64 cast wraps it to a negative value. -/
theorem c2_counterexample :
    (durationToTimespec { secs := 2 ^ 63, nanos := 0 }).tv_sec = -(2 ^ 63) ∧
    (durationToTimespec { secs := 2 ^ 63, nanos := 0 }).tv_sec ≠
      (((2 ^ 63 : Nat) : Int)) := by
  decide

/-- Claim C4 (amended): after the kernel wait call succeeds, a failure of
the wake-channel re-registration is surfaced to the caller; the outcomes of
the drain reads are never surfaced — the result of wait does not depend on
them at all. -/
theorem c4_wait_drain_reregister (readFd : Nat) (events : Events)
    (t : Option Duration)
    (kernel : Option Timespec → Except Int (List KEvent))
    (drains drains2 : List (Except Int Nat))
    (submit : List KEvent → Except Int (List KEvent)) (recs : List KEvent)
    (hk : kernel (waitTimespec t) = Except.ok recs) :
    (∀ e, interest readFd notifyEvent submit = Except.error e →
      (wait readFd events t kernel drains submit).2 = Except.error e) ∧
    wait readFd events t kernel drains submit =
      wait readFd events t kernel drains2 submit := by
  constructor
  · intro e he
    simp only [wait, hk]
    unfold notifyEvent at he
    simp only [he]
  · rfl

/-- Receipts where the read sub-change reports error code 9 (EBADF). -/
def ebadfReceipts : List KEvent :=
  [{ ident := 3, filter := EVFILT_READ, flags := EV_ERROR, fflags := 0
     data := 9, udata := NOTIFY_KEY },
   { ident := 3, filter := EVFILT_WRITE, flags := EV_ERROR, fflags := 0
     data := 0, udata := NOTIFY_KEY }]

theorem c4_wait_drain_reregister_witness :
    (wait 3 Events.new none (fun _ => Except.ok []) [Except.ok 1]
      (fun _ => Except.ok ebadfReceipts)).2 = Except.error 9 :=
  (c4_wait_drain_reregister 3 Events.new none (fun _ => Except.ok [])
    [Except.ok 1] [] (fun _ => Except.ok ebadfReceipts) [] rfl).1 9 rfl

/-- Counterexample to claim C4 as stated: a drain read fails with code 9
(EBADF), which is not the would-block code, yet wait still returns success —
the drain failure is silently dropped, not surfaced. -/
theorem c4_counterexample :
    (9 : Int) ≠ EWOULDBLOCK ∧
    (wait 3 Events.new none (fun _ => Except.ok []) [Except.error 9]
      submitOk).2 = Except.ok 0 :=
  ⟨by decide, rfl⟩

/-- Claim C7: notify writes the single byte 1 to the wake channel and always
returns success, whatever the outcome of the write. -/
theorem c7_notify_best_effort :
    (∀ writeByte, notify writeByte = Except.ok ()) ∧
    notify (fun _ => Except.error EPIPE) = Except.ok () ∧
    notifyMsg = [1] ∧
    notifyMsg.length = 1 :=
  ⟨fun _ => rfl, rfl, rfl, rfl⟩

lemma interestFlags_add_eq_zero_of_false :
    ((EV_ONESHOT ||| EV_RECEIPT) ||| (if (false : Bool) then EV_ADD else EV_DELETE))
      &&& EV_ADD = 0 := by
  decide

/-- Claim C8: the reserved key is the maximum 64-bit value, and every
wake-channel registration — the one in Poller::new and the re-registration
in Poller::wait — registers the read side with exactly this key, readable
true and writable false, so its write sub-change is a deletion and never an
addition. -/
theorem c8_notify_key_and_wake_registration :
    NOTIFY_KEY = 2 ^ 64 - 1 ∧
    notifyEvent.key = NOTIFY_KEY ∧
    notifyEvent.readable = true ∧
    notifyEvent.writable = false ∧
    (∀ fd submit, pollerNewRegister fd submit = interest fd notifyEvent submit) ∧
    (∀ fd : Nat,
      (interestReadChange fd notifyEvent).udata = NOTIFY_KEY ∧
      (interestWriteChange fd notifyEvent).udata = NOTIFY_KEY ∧
      (interestReadChange fd notifyEvent).flags &&& EV_ADD ≠ 0 ∧
      (interestWriteChange fd notifyEvent).flags &&& EV_ADD = 0 ∧
      (interestWriteChange fd notifyEvent).flags &&& EV_DELETE ≠ 0) ∧
    (∀ (readFd : Nat) (events : Events) (t : Option Duration)
        (kernel : Option Timespec → Except Int (List KEvent))
        (drains : List (Except Int Nat))
        (submit : List KEvent → Except Int (List KEvent)) (recs : List KEvent),
      kernel (waitTimespec t) = Except.ok recs →
      ((interest readFd notifyEvent submit = Except.ok () →
        (wait readFd events t kernel drains submit).2 = Except.ok recs.length) ∧
       (∀ e, interest readFd notifyEvent submit = Except.error e →
        (wait readFd events t kernel drains submit).2 = Except.error e))) := by
  refine ⟨rfl, rfl, rfl, rfl, fun _ _ => rfl,
    fun fd => ⟨rfl, rfl, (interestFlags_add_iff true).mpr rfl,
      interestFlags_add_eq_zero_of_false, (interestFlags_delete_iff false).mpr rfl⟩,
    ?_⟩
  intro readFd events t kernel drains submit recs hk
  constructor
  · intro hok
    simp only [wait, hk]
    unfold notifyEvent at hok
    simp only [hok]
    rfl
  · intro e he
    simp only [wait, hk]
    unfold notifyEvent at he
    simp only [he]

theorem c8_notify_key_and_wake_registration_witness :
    (wait 6 Events.new none (fun _ => Except.ok []) [] submitOk).2 = Except.ok 0 :=
  (c8_notify_key_and_wake_registration.2.2.2.2.2.2 6 Events.new none
    (fun _ => Except.ok []) [] submitOk [] rfl).1 rfl

/-- Claim C9: Events::new builds a buffer of capacity 1000 with logical
length 0; the refill performed by wait keeps the logical length within the
capacity whenever the kernel fills at most capacity records and leaves the
capacity unchanged; and the sequence produced by Events::iter is exactly the
translation of the first len records, never longer than len. -/
theorem c9_events_capacity_invariant :
    Events.new.len = 0 ∧
    Events.new.list.length = 1000 ∧
    (∀ (e : Events) (recs : List KEvent), recs.length ≤ e.list.length →
      (fillEvents e recs).len ≤ (fillEvents e recs).list.length ∧
      (fillEvents e recs).list.length = e.list.length) ∧
    (∀ e : Events,
      Events.iter e = (e.list.take e.len).map eventOfKEvent ∧
      (Events.iter e).length ≤ e.len ∧
      (Events.iter e).length = min e.len e.list.length) := by
  refine ⟨rfl, by simp only [Events.new, List.length_replicate], ?_, ?_⟩
  · intro e recs h
    constructor
    · simp only [fillEvents, List.length_append, List.length_drop]
      omega
    · simp only [fillEvents, List.length_append, List.length_drop]
      omega
  · intro e
    refine ⟨rfl, ?_, ?_⟩
    · simp only [Events.iter, List.length_map, List.length_take]
      omega
    · simp [Events.iter]

theorem c9_events_capacity_invariant_witness :
    (fillEvents exEvents [exEofRecord]).len ≤
      (fillEvents exEvents [exEofRecord]).list.length :=
  (c9_events_capacity_invariant.2.2.1 exEvents [exEofRecord] (by decide)).1

end Polling
